import Mathlib

/-!
Verification of the blade-py ecosystem data model and cache lifecycle.

The definitions below are shallow embeddings of the Python source in
`blade.py` and `version_utils.py`.  Python strings are `String`, Python
ints are `Int`/`Nat`, Python floats that only ever hold Unix timestamps
are `ℚ`, and functions that can raise an uncaught exception are embedded
as `Except Unit`-valued functions where `Except.error ()` marks the
raised exception.  `packaging.version.Version` is embedded as
`PyVersion` below, covering the PEP 440 forms that Cargo-style version
strings exercise (release segments plus an optional alpha/beta/rc
pre-release suffix); epoch, post, dev and local segments are not
produced by the repository's inputs and are treated as parse failures.
-/

deriving instance DecidableEq for Except

/-- Characterwise lexicographic `≤` on strings by code point, the order
Python uses to compare `str` values (used by `sorted`). -/
def lexLeB : List Char → List Char → Bool
  | [], _ => true
  | _ :: _, [] => false
  | a :: as, b :: bs =>
    if a < b then true
    else if b < a then false
    else lexLeB as bs

/-- The propositional order used to model Python's `sorted` on strings. -/
def pyStrLe (a b : String) : Prop := lexLeB a.data b.data = true

instance : DecidableRel pyStrLe := fun a b => by unfold pyStrLe; infer_instance

/-- Python's `sorted` on a list of strings (ascending code-point order). -/
def sortStrings (l : List String) : List String := l.insertionSort pyStrLe

/-- Value of a digit run, as Python's `int` of the digit characters. -/
def digitsToNat (ds : List Char) : Nat :=
  ds.foldl (fun a c => a * 10 + (c.toNat - 48)) 0

/-- Bool test for a substring occurrence: Python's `needle in hay` on strings. -/
def containsSub (needle : List Char) : List Char → Bool
  | [] => needle.isEmpty
  | c :: rest => needle.isPrefixOf (c :: rest) || containsSub needle rest

/-- Strip every leading and trailing occurrence of `ch`: Python's `str.strip('"')`. -/
def stripCharBoth (ch : Char) (l : List Char) : List Char :=
  ((l.dropWhile (· = ch)).reverse.dropWhile (· = ch)).reverse

/-- Strip leading and trailing whitespace: Python's `str.strip()`. -/
def stripWsBoth (l : List Char) : List Char :=
  ((l.dropWhile (·.isWhitespace)).reverse.dropWhile (·.isWhitespace)).reverse

/-- Python's `str.split()` with no separator: split on whitespace runs,
dropping empty pieces. -/
def pySplitWs : List Char → List (List Char)
  | [] => []
  | c :: rest =>
    if c.isWhitespace then pySplitWs rest
    else
      match pySplitWs rest with
      | [] => [[c]]
      | tok :: toks =>
        match rest with
        | [] => [[c]]
        | r :: _ => if r.isWhitespace then [c] :: tok :: toks else (c :: tok) :: toks

/-- Python's `str.split(sep)` for a one-character separator: splits at every
occurrence, keeping empty pieces. -/
def splitOnChar (sep : Char) : List Char → List (List Char)
  | [] => [[]]
  | c :: rest =>
    if c = sep then [] :: splitOnChar sep rest
    else
      match splitOnChar sep rest with
      | [] => [[c]]
      | tok :: toks => (c :: tok) :: toks

/-- Python's `int(str)`: surrounding whitespace, an optional sign, digits.
(The underscore digit separators Python also accepts never occur in the
cache rows this models.) -/
def pyInt? (s : String) : Option Int :=
  match stripWsBoth s.data with
  | '-' :: ds => if !ds.isEmpty && ds.all (·.isDigit) then some (-(digitsToNat ds : Int)) else none
  | '+' :: ds => if !ds.isEmpty && ds.all (·.isDigit) then some ((digitsToNat ds : Int)) else none
  | ds => if !ds.isEmpty && ds.all (·.isDigit) then some ((digitsToNat ds : Int)) else none

/-- Embedding of `packaging.version.Version` for the version forms the
repository's Cargo-style inputs produce: a release tuple and an optional
pre-release pair (phase, number) with phases `a`/`alpha` ↦ 0,
`b`/`beta` ↦ 1, `c`/`rc`/`pre`/`preview` ↦ 2. -/
structure PyVersion where
  release : List Nat
  pre : Option (Nat × Nat)
deriving DecidableEq

/-- `Version.major`: first release component, 0 if absent. -/
def PyVersion.major (v : PyVersion) : Nat := v.release.headD 0

/-- `Version.minor`: second release component, 0 if absent. -/
def PyVersion.minor (v : PyVersion) : Nat := v.release.getD 1 0

/-- Drop trailing zero release components, as `packaging`'s comparison key
does (this is what makes `2.0` and `2.0.0` compare equal). -/
def trimZeros (l : List Nat) : List Nat :=
  (l.reverse.dropWhile (· = 0)).reverse

/-- Python tuple `<` on release tuples. -/
def releaseLt : List Nat → List Nat → Bool
  | [], [] => false
  | [], _ :: _ => true
  | _ :: _, [] => false
  | a :: as, b :: bs =>
    if a < b then true
    else if b < a then false
    else releaseLt as bs

/-- `packaging`'s comparison key for the pre-release part: an absent
pre-release ranks above every present one (`Infinity` in the source). -/
def preLt : Option (Nat × Nat) → Option (Nat × Nat) → Bool
  | none, _ => false
  | some _, none => true
  | some (p, n), some (q, m) =>
    if p < q then true
    else if q < p then false
    else n < m

/-- `packaging.version.Version.__eq__` via the comparison key. -/
def versionEq (a b : PyVersion) : Bool :=
  trimZeros a.release = trimZeros b.release ∧ a.pre = b.pre

/-- `packaging.version.Version.__lt__` via the comparison key. -/
def versionLt (a b : PyVersion) : Bool :=
  releaseLt (trimZeros a.release) (trimZeros b.release) ||
    (trimZeros a.release = trimZeros b.release && preLt a.pre b.pre)

/-- Pre-release phase keywords and their normalized rank, per `packaging`'s
normalization (`alpha` ↦ `a`, `beta` ↦ `b`, `c`/`pre`/`preview` ↦ `rc`). -/
def phaseOf (w : List Char) : Option Nat :=
  if w = "a".data ∨ w = "alpha".data then some 0
  else if w = "b".data ∨ w = "beta".data then some 1
  else if w = "rc".data ∨ w = "c".data ∨ w = "pre".data ∨ w = "preview".data then some 2
  else none

/-- Parse the dotted release part `N(.N)*`, leaving the remainder. -/
def parseReleaseF : Nat → List Char → Option (List Nat × List Char)
  | 0, _ => none
  | fuel + 1, cs =>
    let ds := cs.takeWhile (·.isDigit)
    let rest := cs.dropWhile (·.isDigit)
    if ds.isEmpty then none
    else
      match rest with
      | '.' :: c :: rest2 =>
        if c.isDigit then
          match parseReleaseF fuel (c :: rest2) with
          | some (ns, r) => some (digitsToNat ds :: ns, r)
          | none => none
        else some ([digitsToNat ds], rest)
      | _ => some ([digitsToNat ds], rest)

/-- Parse the optional pre-release suffix (`[-_.]? phase [-_.]? digits?`),
requiring the whole remainder to be consumed. -/
def parsePre (cs : List Char) : Option (Option (Nat × Nat)) :=
  match cs with
  | [] => some none
  | _ =>
    let cs1 := match cs with
      | c :: rest => if c = '-' ∨ c = '_' ∨ c = '.' then rest else cs
      | [] => cs
    let w := cs1.takeWhile (·.isAlpha)
    let rest := cs1.dropWhile (·.isAlpha)
    match phaseOf (w.map Char.toLower) with
    | none => none
    | some ph =>
      let rest1 := match rest with
        | c :: r => if c = '-' ∨ c = '_' ∨ c = '.' then r else rest
        | [] => rest
      let ds := rest1.takeWhile (·.isDigit)
      let rest2 := rest1.dropWhile (·.isDigit)
      if rest2.isEmpty then some (some (ph, digitsToNat ds)) else none

/-- `packaging.version.parse` on the grammar subset described at the top of
this file: surrounding whitespace, an optional `v`/`V`, the release, and an
optional pre-release suffix. -/
def parsePyVersion (s : String) : Option PyVersion :=
  let cs := stripWsBoth s.data
  let cs := match cs with
    | 'v' :: rest => rest
    | 'V' :: rest => rest
    | other => other
  match parseReleaseF (cs.length + 1) cs with
  | none => none
  | some (rel, rest) =>
    match parsePre rest with
    | none => none
    | some pre => some ⟨rel, pre⟩

/-- `canonicalize_version` (`blade.py` line 77, `version_utils.py` line 6).
`Except.error ()` marks the uncaught `IndexError` Python raises at
`ver_str.strip('"').split()[0]` when the quote-stripped input has no
whitespace-separated tokens. -/
def canonicalize_version (ver_str : String) : Except Unit (Option PyVersion) :=
  if ver_str.data.isEmpty || ver_str = "path" || containsSub "workspace".data ver_str.data then
    Except.ok none
  else
    match pySplitWs (stripCharBoth '"' ver_str.data) with
    | [] => Except.error ()
    | tok :: _ =>
      let tok := match tok with
        | '=' :: rest => rest
        | other => other
      Except.ok (parsePyVersion (String.mk tok))

/-- `parse_version` (`blade.py` line 628) delegates to `canonicalize_version`. -/
def parse_version (ver_str : String) : Except Unit (Option PyVersion) :=
  canonicalize_version ver_str

/-- `is_breaking_change` (`blade.py` line 636), for string arguments: false on
falsy (empty) or unparseable input, true on a major bump or a 0.x minor bump.
Exceptions from `parse_version` propagate. -/
def is_breaking_change (from_version to_version : String) : Except Unit Bool :=
  if from_version.data.isEmpty || to_version.data.isEmpty then Except.ok false
  else
    match parse_version from_version with
    | Except.error e => Except.error e
    | Except.ok fv =>
      match parse_version to_version with
      | Except.error e => Except.error e
      | Except.ok tv =>
        match fv, tv with
        | some f, some t =>
          if f.major < t.major then Except.ok true
          else if f.major = 0 ∧ f.minor < t.minor then Except.ok true
          else Except.ok false
        | _, _ => Except.ok false

/-- `compute_tree_md5` (`blade.py` line 1579): hash of the concatenation of
the sorted manifest path strings.  The MD5 digest itself is an external
primitive, taken as the parameter `md5hex`; the function under audit is the
sort-then-concatenate structure around it. -/
def compute_tree_md5 (md5hex : String → String) (cargo_files : List String) : String :=
  md5hex (String.join (sortStrings cargo_files))

/-- The tree-metadata sidecar as loaded from JSON (`load_tree_metadata`,
`blade.py` line 1597): both fields are read with `dict.get` and may be
absent. -/
structure TreeMetadata where
  tree_md5 : Option String
  timestamp : Option ℚ
deriving DecidableEq

/-- `should_use_cached_data` (`blade.py` line 1625).  `cache_file_exists`
stands for `Path(get_data_file_path("deps_cache.tsv")).exists()`,
`metadata` for the result of `load_tree_metadata()`, and `now` for
`time.time()`. -/
def should_use_cached_data (md5hex : String → String) (cache_file_exists : Bool)
    (metadata : Option TreeMetadata) (cargo_files : List String) (now : ℚ) : Bool :=
  if !cache_file_exists then false
  else
    match metadata with
    | none => false
    | some md =>
      if md.tree_md5 ≠ some (compute_tree_md5 md5hex cargo_files) then false
      else if now - md.timestamp.getD 0 > 86400 then false
      else true

/-- The `RepoData` dataclass (`blade.py` line 1496). -/
structure RepoData where
  repo_id : Int
  repo_name : String
  path : String
  parent : String
  last_update : Int
  cargo_version : String
  hub_usage : String
  hub_status : String
  is_internal : String
  org : String
  group : String
  library_type : String
deriving DecidableEq

/-- The `DepData` dataclass (`blade.py` line 1511). -/
structure DepData where
  dep_id : Int
  repo_id : Int
  pkg_name : String
  pkg_version : String
  dep_type : String
  features : String
deriving DecidableEq

/-- The `LatestData` dataclass (`blade.py` line 1520). -/
structure LatestData where
  pkg_id : Int
  pkg_name : String
  latest_version : String
  latest_stable_version : String
  source_type : String
  source_value : String
  hub_version : String
  hub_status : String
  git_status : String
deriving DecidableEq

/-- The `VersionMapData` dataclass (`blade.py` line 1532). -/
structure VersionMapData where
  map_id : Int
  dep_id : Int
  pkg_id : Int
  repo_id : Int
  version_state : String
  breaking_type : String
  ecosystem_status : String
deriving DecidableEq

/-- The `HubInfo` dataclass (`blade.py` line 1542); `dependencies` is the
hub's name ↦ declared-version dict, as an association list. -/
structure HubInfo where
  path : String
  version : String
  dependencies : List (String × String)
  last_update : Int
deriving DecidableEq

/-- The distinct raw version strings declared for `pkg` across the given
dependency edges, in first-occurrence order — the per-package `set()` of
`get_version_conflicts`. -/
def distinctVersions (deps : List DepData) (pkg : String) : List String :=
  ((deps.filter (fun d => d.pkg_name == pkg)).map (fun d => d.pkg_version)).dedup

/-- `get_version_conflicts` (`blade.py` line 2603).  The Python loop builds a
dict keyed by package name (first-occurrence key order) whose values are sets
of raw version strings; that grouping is rendered here as `dedup` over the
name list with `distinctVersions` per name, and the final comprehension keeps
the names with more than one distinct version, listing them sorted. -/
def get_version_conflicts (deps : List DepData) : List (String × List String) :=
  (((deps.map (fun d => d.pkg_name)).dedup.map
      (fun pkg => (pkg, distinctVersions deps pkg))).filter
    (fun p => 1 < p.2.length)).map (fun p => (p.1, sortStrings p.2))

/-- Loop body of Python's `max(pkg_versions, key=parse_version)`: fold the
remaining items, keeping the element whose key compares greater.  A `None`
key entering a comparison raises `TypeError` (modelled as `Except.error`),
and `parse_version` itself can raise. -/
def pyMaxGo (best : String) (kb : Option PyVersion) : List String → Except Unit String
  | [] => Except.ok best
  | y :: ys =>
    match canonicalize_version y with
    | Except.error e => Except.error e
    | Except.ok ky =>
      match ky, kb with
      | some a, some b =>
        if versionLt b a then pyMaxGo y (some a) ys else pyMaxGo best (some b) ys
      | _, _ => Except.error ()

/-- Python's `max(l, key=parse_version)`; `max` of an empty list raises. -/
def pyMaxByParse : List String → Except Unit String
  | [] => Except.error ()
  | x :: xs =>
    match canonicalize_version x with
    | Except.error e => Except.error e
    | Except.ok kx => pyMaxGo x kx xs

/-- `get_breaking_updates` (`blade.py` line 2613): for each crate-sourced
package record, compare the maximum used raw version against the record's
latest version and collect a (name, current, latest) triple when breaking. -/
def get_breaking_updates (latest : List LatestData) (deps : List DepData) :
    Except Unit (List (String × String × String)) :=
  match latest with
  | [] => Except.ok []
  | ld :: rest =>
    if ld.source_type = "crate" then
      let vs := (deps.filter (fun d => d.pkg_name == ld.pkg_name)).map (fun d => d.pkg_version)
      if vs.isEmpty then get_breaking_updates rest deps
      else
        match pyMaxByParse vs with
        | Except.error e => Except.error e
        | Except.ok cur =>
          match is_breaking_change cur ld.latest_version with
          | Except.error e => Except.error e
          | Except.ok br =>
            match get_breaking_updates rest deps with
            | Except.error e => Except.error e
            | Except.ok tail =>
              Except.ok (if br then (ld.pkg_name, cur, ld.latest_version) :: tail else tail)
    else get_breaking_updates rest deps

/-- The package record for a name, if any (PackageInfo names are unique). -/
def findLatest (latest : List LatestData) (pkg : String) : Option LatestData :=
  latest.find? (fun ld => ld.pkg_name == pkg)

/-- Formalization of claim C7's wording: the dependency edges of
registry(crate)-sourced packages whose own raw version is classified
breaking against the package's latest version. -/
def claimed_breaking_edges (latest : List LatestData) (deps : List DepData) : List DepData :=
  deps.filter (fun d =>
    match findLatest latest d.pkg_name with
    | some ld =>
      ld.source_type == "crate" &&
        decide (is_breaking_change d.pkg_version ld.latest_version = Except.ok true)
    | none => false)

/-- The per-record outcome `get_breaking_updates` actually produces: `none`
when the record is not crate-sourced, has no edges, or the single
max-versus-latest comparison is not breaking. -/
def breakTripleSpec (deps : List DepData) (ld : LatestData) : Option (String × String × String) :=
  if ld.source_type = "crate" then
    let vs := (deps.filter (fun d => d.pkg_name == ld.pkg_name)).map (fun d => d.pkg_version)
    if vs.isEmpty then none
    else
      match pyMaxByParse vs with
      | Except.error _ => none
      | Except.ok cur =>
        match is_breaking_change cur ld.latest_version with
        | Except.ok true => some (ld.pkg_name, cur, ld.latest_version)
        | _ => none
  else none

/-- The hub-version/hub-status derivation of `batch_fetch_latest_versions`
(`blade.py` lines 2220–2240) for one package record, given the package's
source classification and resolved latest version. -/
def hub_fields (hub_info : Option HubInfo) (pkg_name source_type latest_version : String) :
    Except Unit (String × String) :=
  match hub_info with
  | none => Except.ok ("NONE", "gap")
  | some hi =>
    match hi.dependencies.lookup pkg_name with
    | none => Except.ok ("NONE", "gap")
    | some hub_version =>
      if source_type = "crate" ∧ latest_version ≠ "N/A" then
        match parse_version hub_version with
        | Except.error e => Except.error e
        | Except.ok hv =>
          match parse_version latest_version with
          | Except.error e => Except.error e
          | Except.ok lv =>
            match hv, lv with
            | some h, some l =>
              Except.ok (hub_version,
                if versionEq h l then "current"
                else if versionLt h l then "outdated"
                else "ahead")
            | _, _ => Except.ok (hub_version, "unknown")
      else Except.ok (hub_version, "local")

/-- Formalization of claim C1's wording for a package the ecosystem uses:
`current` if the hub's declared version is parseable and ≥ the resolved
latest stable version, `outdated` if parseable but below, `gap` if the hub
does not declare the package, `local` for local/git/workspace-sourced
packages the hub does declare. -/
def claimed_hub_status (hub_declared : Option String)
    (source_type latest_stable_version : String) : Option String :=
  match hub_declared with
  | none => some "gap"
  | some hv =>
    if source_type = "local" ∨ source_type = "git" ∨ source_type = "workspace" then some "local"
    else
      match parsePyVersion hv, parsePyVersion latest_stable_version with
      | some h, some ls => some (if versionLt h ls then "outdated" else "current")
      | _, _ => none

/-- Python `dict[k] = v` on an association list: overwrite in place if the
key exists, else append. -/
def dictInsert {κ α : Type} [DecidableEq κ] (m : List (κ × α)) (k : κ) (v : α) : List (κ × α) :=
  if m.any (fun p => p.1 == k) then m.map (fun p => if p.1 = k then (k, v) else p)
  else m ++ [(k, v)]

/-- Repo-section row parser of `hydrate_tsv_cache` (`blade.py` line 2473):
rows need at least 8 columns; the four trailing columns default to
`"false"`, `""`, `""`, `"project"` when absent.  `none` covers both the
too-short row (no branch taken) and the `ValueError` of `int()` (caught and
skipped). -/
def parse_repo_row (parts : List String) : Option RepoData :=
  if 8 ≤ parts.length then
    match pyInt? (parts.getD 0 ""), pyInt? (parts.getD 4 "") with
    | some rid, some lu =>
      some { repo_id := rid, repo_name := parts.getD 1 "", path := parts.getD 2 "",
             parent := parts.getD 3 "", last_update := lu, cargo_version := parts.getD 5 "",
             hub_usage := parts.getD 6 "", hub_status := parts.getD 7 "",
             is_internal := if 9 ≤ parts.length then parts.getD 8 "" else "false",
             org := if 10 ≤ parts.length then parts.getD 9 "" else "",
             group := if 11 ≤ parts.length then parts.getD 10 "" else "",
             library_type := if 12 ≤ parts.length then parts.getD 11 "" else "project" }
    | _, _ => none
  else none

/-- Deps-section row parser of `hydrate_tsv_cache` (`blade.py` line 2496). -/
def parse_dep_row (parts : List String) : Option DepData :=
  if 6 ≤ parts.length then
    match pyInt? (parts.getD 0 ""), pyInt? (parts.getD 1 "") with
    | some did, some rid =>
      some { dep_id := did, repo_id := rid, pkg_name := parts.getD 2 "",
             pkg_version := parts.getD 3 "", dep_type := parts.getD 4 "",
             features := parts.getD 5 "" }
    | _, _ => none
  else none

/-- Latest-section row parser of `hydrate_tsv_cache` (`blade.py` line 2507):
rows need at least 8 columns; a missing trailing `git_status` defaults to
`"OK"`. -/
def parse_latest_row (parts : List String) : Option LatestData :=
  if 8 ≤ parts.length then
    match pyInt? (parts.getD 0 "") with
    | some pid =>
      some { pkg_id := pid, pkg_name := parts.getD 1 "", latest_version := parts.getD 2 "",
             latest_stable_version := parts.getD 3 "", source_type := parts.getD 4 "",
             source_value := parts.getD 5 "", hub_version := parts.getD 6 "",
             hub_status := parts.getD 7 "",
             git_status := if 9 ≤ parts.length then parts.getD 8 "" else "OK" }
    | none => none
  else none

/-- Version-map-section row parser of `hydrate_tsv_cache` (`blade.py`
line 2523). -/
def parse_version_map_row (parts : List String) : Option VersionMapData :=
  if 7 ≤ parts.length then
    match pyInt? (parts.getD 0 ""), pyInt? (parts.getD 1 ""),
          pyInt? (parts.getD 2 ""), pyInt? (parts.getD 3 "") with
    | some mid, some did, some pid, some rid =>
      some { map_id := mid, dep_id := did, pkg_id := pid, repo_id := rid,
             version_state := parts.getD 4 "", breaking_type := parts.getD 5 "",
             ecosystem_status := parts.getD 6 "" }
    | _, _, _, _ => none
  else none

/-- The `EcosystemData` dataclass (`blade.py` line 2414), with Python dicts
as insertion-ordered association lists. -/
structure EcosystemData where
  aggregation : List (String × String)
  repos : List (Int × RepoData)
  deps : List (Int × DepData)
  latest : List (String × LatestData)
  version_maps : List (Int × VersionMapData)
deriving DecidableEq

/-- Section-header dispatch of `hydrate_tsv_cache` (`blade.py` line 2446):
the current section is unchanged when no known name occurs in the line. -/
def sectionOf (l : List Char) (sec : Option String) : Option String :=
  if containsSub "AGGREGATION METRICS".data l then some "aggregation"
  else if containsSub "REPO LIST".data l then some "repos"
  else if containsSub "DEP VERSIONS LIST".data l then some "deps"
  else if containsSub "DEP LATEST LIST".data l then some "latest"
  else if containsSub "VERSION MAP LIST".data l then some "version_maps"
  else sec

/-- Column-header-row test of `hydrate_tsv_cache` (`blade.py` line 2460). -/
def isHeaderRow (l : List Char) : Bool :=
  l.contains '\t' &&
    ("KEY\t".data.isPrefixOf l || "REPO_ID\t".data.isPrefixOf l ||
     "DEP_ID\t".data.isPrefixOf l || "PKG_ID\t".data.isPrefixOf l ||
     "MAP_ID\t".data.isPrefixOf l)

/-- Data-row dispatch of `hydrate_tsv_cache` (`blade.py` lines 2465–2537): a
row that fails its section's parser (wrong arity or `int()` failure) is
skipped, never fatal. -/
def hydrateLine (sec : Option String) (eco : EcosystemData) (parts : List String) :
    EcosystemData :=
  match sec with
  | none => eco
  | some s =>
    if s = "aggregation" then
      if 2 ≤ parts.length then
        { eco with aggregation := dictInsert eco.aggregation (parts.getD 0 "") (parts.getD 1 "") }
      else eco
    else if s = "repos" then
      match parse_repo_row parts with
      | some r => { eco with repos := dictInsert eco.repos r.repo_id r }
      | none => eco
    else if s = "deps" then
      match parse_dep_row parts with
      | some d => { eco with deps := dictInsert eco.deps d.dep_id d }
      | none => eco
    else if s = "latest" then
      match parse_latest_row parts with
      | some p => { eco with latest := dictInsert eco.latest p.pkg_name p }
      | none => eco
    else if s = "version_maps" then
      match parse_version_map_row parts with
      | some v => { eco with version_maps := dictInsert eco.version_maps v.map_id v }
      | none => eco
    else eco

/-- Line loop of `hydrate_tsv_cache` (`blade.py` line 2438): strip, skip
blanks, switch sections, skip column-header rows, split on tabs and parse. -/
def hydrateAux : Option String → EcosystemData → List String → EcosystemData
  | _, eco, [] => eco
  | sec, eco, line :: rest =>
    let l := stripWsBoth line.data
    if l.isEmpty then hydrateAux sec eco rest
    else if "#------ SECTION :".data.isPrefixOf l then hydrateAux (sectionOf l sec) eco rest
    else if isHeaderRow l then hydrateAux sec eco rest
    else
      hydrateAux sec
        (hydrateLine sec eco ((splitOnChar '\t' l).map (fun cs => String.mk cs))) rest

/-- `hydrate_tsv_cache` (`blade.py` line 2422) over the cache file's lines.
(The `FileNotFoundError` for a missing file is raised before any line is
read and is not part of the row-tolerance behaviour modelled here.) -/
def hydrate_tsv_cache (lines : List String) : EcosystemData :=
  hydrateAux none ⟨[], [], [], [], []⟩ lines

/-- File-system effects used by `write_tsv_cache`: `openWrite` is Python's
`open(path, 'w')`, which truncates the target in place. -/
inductive FileOp where
  | openWrite : String → FileOp
  | openAppend : String → FileOp
  | writeLine : String → FileOp
  | rename : String → String → FileOp
deriving DecidableEq

/-- Whether an effect is a rename/replace. -/
def FileOp.isRename : FileOp → Bool
  | FileOp.rename _ _ => true
  | _ => false

/-- Tab-joined row, as the f-strings of `write_tsv_cache` produce. -/
def tabJoin (cells : List String) : String := String.intercalate "\t" cells

/-- Sentence written for one repository row (`blade.py` line 2388). -/
def repoRowLine (r : RepoData) : String :=
  tabJoin [toString r.repo_id, r.repo_name, r.path, r.parent, toString r.last_update,
           r.cargo_version, r.hub_usage, r.hub_status, r.is_internal, r.org, r.group,
           r.library_type]

/-- Sentence written for one dependency row (`blade.py` line 2395). -/
def depRowLine (d : DepData) : String :=
  tabJoin [toString d.dep_id, toString d.repo_id, d.pkg_name, d.pkg_version, d.dep_type,
           d.features]

/-- Sentence written for one package-latest row (`blade.py` line 2402). -/
def latestRowLine (p : LatestData) : String :=
  tabJoin [toString p.pkg_id, p.pkg_name, p.latest_version, p.latest_stable_version,
           p.source_type, p.source_value, p.hub_version, p.hub_status, p.git_status]

/-- Sentence written for one version-map row (`blade.py` line 2409). -/
def vmRowLine (v : VersionMapData) : String :=
  tabJoin [toString v.map_id, toString v.dep_id, toString v.pkg_id, toString v.repo_id,
           v.version_state, v.breaking_type, v.ecosystem_status]

/-- Count of elements satisfying a predicate(the `len([x for x in ...])`
metric pattern of `write_tsv_cache`). -/
def countIf {α : Type} (l : List α) (p : α → Bool) : Nat := (l.filter p).length

/-- The file-operation trace of `write_tsv_cache` (`blade.py` line 2331):
one truncating open of `output_file` itself, the aggregation-metric lines,
then one append open and the four record sections.  No temporary file and no
rename appears anywhere in the function (nor in its caller
`generate_data_cache`, `blade.py` line 2922). -/
def write_tsv_cache_ops (repos : List RepoData) (deps : List DepData)
    (latest_versions : List LatestData) (version_maps : List VersionMapData)
    (output_file : String) : List FileOp :=
  [FileOp.openWrite output_file,
   FileOp.writeLine "#------ SECTION : AGGREGATION METRICS --------#",
   FileOp.writeLine "KEY\tVALUE",
   FileOp.writeLine ("total_repos\t" ++ toString repos.length),
   FileOp.writeLine ("hub_using_repos\t" ++
     toString (countIf repos (fun r => r.hub_status == "using" || r.hub_status == "path"))),
   FileOp.writeLine ("total_deps\t" ++ toString deps.length),
   FileOp.writeLine ("total_packages\t" ++ toString latest_versions.length),
   FileOp.writeLine ("git_packages\t" ++
     toString (countIf latest_versions (fun p => p.source_type == "git"))),
   FileOp.writeLine ("local_packages\t" ++
     toString (countIf latest_versions (fun p => p.source_type == "local"))),
   FileOp.writeLine ("crate_packages\t" ++
     toString (countIf latest_versions (fun p => p.source_type == "crate"))),
   FileOp.writeLine ("workspace_packages\t" ++
     toString (countIf latest_versions (fun p => p.source_type == "workspace"))),
   FileOp.writeLine ("hub_current\t" ++
     toString (countIf latest_versions (fun p => p.hub_status == "current"))),
   FileOp.writeLine ("hub_outdated\t" ++
     toString (countIf latest_versions (fun p => p.hub_status == "outdated"))),
   FileOp.writeLine ("hub_gap\t" ++
     toString (countIf latest_versions (fun p => p.hub_status == "gap"))),
   FileOp.writeLine ("hub_local\t" ++
     toString (countIf latest_versions (fun p => p.hub_status == "local"))),
   FileOp.writeLine ("breaking_updates\t" ++
     toString (countIf version_maps (fun v => v.breaking_type == "BREAKING"))),
   FileOp.writeLine ("safe_updates\t" ++
     toString (countIf version_maps (fun v => v.breaking_type == "safe"))),
   FileOp.writeLine ("unknown_updates\t" ++
     toString (countIf version_maps (fun v => v.breaking_type == "unknown"))),
   FileOp.writeLine ("stable_versions\t" ++
     toString (countIf version_maps (fun v => v.version_state == "stable"))),
   FileOp.writeLine ("unstable_versions\t" ++
     toString (countIf version_maps (fun v => v.version_state == "unstable"))),
   FileOp.writeLine "",
   FileOp.openAppend output_file,
   FileOp.writeLine "#------ SECTION : REPO LIST --------#",
   FileOp.writeLine "REPO_ID\tREPO_NAME\tPATH\tPARENT\tLAST_UPDATE\tCARGO_VERSION\tHUB_USAGE\tHUB_STATUS\tIS_INTERNAL\tORG\tGROUP\tLIBRARY_TYPE"]
  ++ repos.map (fun r => FileOp.writeLine (repoRowLine r))
  ++ [FileOp.writeLine "",
      FileOp.writeLine "#------ SECTION : DEP VERSIONS LIST --------#",
      FileOp.writeLine "DEP_ID\tREPO_ID\tPKG_NAME\tPKG_VERSION\tDEP_TYPE\tFEATURES"]
  ++ deps.map (fun d => FileOp.writeLine (depRowLine d))
  ++ [FileOp.writeLine "",
      FileOp.writeLine "#------ SECTION : DEP LATEST LIST --------#",
      FileOp.writeLine "PKG_ID\tPKG_NAME\tLATEST_VERSION\tLATEST_STABLE_VERSION\tSOURCE_TYPE\tSOURCE_VALUE\tHUB_VERSION\tHUB_STATUS\tGIT_STATUS"]
  ++ latest_versions.map (fun p => FileOp.writeLine (latestRowLine p))
  ++ [FileOp.writeLine "",
      FileOp.writeLine "#------ SECTION : VERSION MAP LIST --------#",
      FileOp.writeLine "MAP_ID\tDEP_ID\tPKG_ID\tREPO_ID\tVERSION_STATE\tBREAKING_TYPE\tECOSYSTEM_STATUS"]
  ++ version_maps.map (fun v => FileOp.writeLine (vmRowLine v))

/-- The slice of a `get_repo_info` result (`blade.py` line 1753) that the
batch extractors branch on: the package name, its declared version, and
`hub_meta.get('hub_sync')`. -/
structure MRepoInfo where
  repo_name : String
  version : String
  hub_sync : Option String
deriving DecidableEq

/-- One dependency declaration as `parse_dependency_info` (`blade.py`
line 1962) yields it, restricted to entries with a truthy resolved version
marker (the only ones either batch loop keeps). -/
structure ManifestDep where
  name : String
  version : String
  features : String
deriving DecidableEq

/-- One discovered manifest, with the `get_repo_info` outcome (`none` for an
unreadable/unparseable manifest) and its parsed dependency sections. -/
structure ManifestModel where
  path : String
  info : Option MRepoInfo
  deps : List ManifestDep
  dev_deps : List ManifestDep
deriving DecidableEq

/-- The identifier-bearing projection of a repository record: `repo_id`,
`repo_name`, and the manifest path it was created from.  The remaining
`RepoData` fields are presentation data with no role in the id ↔ manifest
correspondence under audit. -/
structure RepoRec where
  repo_id : Int
  repo_name : String
  path : String
deriving DecidableEq

/-- Loop of `extract_repo_metadata_batch` (`blade.py` line 1842): ids start
at 100 and advance once per manifest with a readable `repo_info`; there is
no `hub_sync` filter here. -/
def extract_repo_metadata_go (repo_id : Int) : List ManifestModel → List RepoRec
  | [] => []
  | m :: rest =>
    match m.info with
    | none => extract_repo_metadata_go repo_id rest
    | some ri => ⟨repo_id, ri.repo_name, m.path⟩ :: extract_repo_metadata_go (repo_id + 1) rest

/-- `extract_repo_metadata_batch` (`blade.py` line 1842). -/
def extract_repo_metadata_batch (files : List ManifestModel) : List RepoRec :=
  extract_repo_metadata_go 100 files

/-- First loop of `extract_dependencies_batch` (`blade.py` lines 1899–1916):
ids restart at 100, but a manifest with `hub_sync = "false"` is skipped
without advancing the counter. -/
def build_repo_lookup (repo_id : Int) : List ManifestModel → List (String × Int)
  | [] => []
  | m :: rest =>
    match m.info with
    | none => build_repo_lookup repo_id rest
    | some ri =>
      if ri.hub_sync = some "false" then build_repo_lookup repo_id rest
      else (m.path, repo_id) :: build_repo_lookup (repo_id + 1) rest

/-- Emit the edges of one dependency section with consecutive ids. -/
def depsOfManifest (dep_id repo_id : Int) (ty : String) : List ManifestDep → List DepData
  | [] => []
  | d :: ds =>
    ⟨dep_id, repo_id, d.name, d.version, ty, d.features⟩ ::
      depsOfManifest (dep_id + 1) repo_id ty ds

/-- Second loop of `extract_dependencies_batch` (`blade.py` lines 1918–1956):
manifests absent from the lookup are skipped; edge ids start at 1000 and
advance per emitted edge. -/
def extract_dependencies_go (lookup : List (String × Int)) (dep_id : Int) :
    List ManifestModel → List DepData
  | [] => []
  | m :: rest =>
    match lookup.lookup m.path with
    | none => extract_dependencies_go lookup dep_id rest
    | some rid =>
      depsOfManifest dep_id rid "dep" m.deps ++
        depsOfManifest (dep_id + m.deps.length) rid "dev-dep" m.dev_deps ++
        extract_dependencies_go lookup (dep_id + m.deps.length + m.dev_deps.length) rest

/-- `extract_dependencies_batch` (`blade.py` line 1893). -/
def extract_dependencies_batch (files : List ManifestModel) : List DepData :=
  extract_dependencies_go (build_repo_lookup 100 files) 1000 files

/-- The package record used by the C7 counterexample. -/
def serdeLatest : LatestData :=
  ⟨200, "serde", "2.0.0", "2.0.0", "crate", "2.0.0", "NONE", "gap", "OK"⟩

/-- The two dependency edges used by the C7 counterexample. -/
def serdeEdges : List DepData :=
  [⟨1000, 100, "serde", "1.0.0", "dep", "NONE"⟩,
   ⟨1001, 101, "serde", "2.0.0", "dep", "NONE"⟩]

/-- A manifest that opts out of dependency scanning via hub_sync = "false". -/
def manifestAlpha : ManifestModel :=
  ⟨"alpha/Cargo.toml", some ⟨"alpha", "0.1.0", some "false"⟩, [⟨"serde", "1.0", "NONE"⟩], []⟩

/-- An ordinary manifest discovered after `manifestAlpha`. -/
def manifestBeta : ManifestModel :=
  ⟨"beta/Cargo.toml", some ⟨"beta", "0.2.0", none⟩, [⟨"serde", "1.0", "NONE"⟩], []⟩

/-! ## Theorems -/

/-- `lexLeB` is total. -/
theorem lexLeB_total : ∀ as bs : List Char, lexLeB as bs = true ∨ lexLeB bs as = true := by
  intro as
  induction as with
  | nil => intro bs; left; cases bs <;> simp [lexLeB]
  | cons a as ih =>
    intro bs
    cases bs with
    | nil => right; simp [lexLeB]
    | cons b bs =>
      rcases lt_trichotomy a b with h | h | h
      · left; simp [lexLeB, h]
      · subst h
        rcases ih bs with h' | h'
        · left; simp [lexLeB, h']
        · right; simp [lexLeB, h']
      · right; simp [lexLeB, h]

/-- `lexLeB` is transitive. -/
theorem lexLeB_trans : ∀ as bs cs : List Char,
    lexLeB as bs = true → lexLeB bs cs = true → lexLeB as cs = true := by
  intro as
  induction as with
  | nil => intro bs cs _ _; cases cs <;> simp [lexLeB]
  | cons a as ih =>
    intro bs cs h1 h2
    cases bs with
    | nil => simp [lexLeB] at h1
    | cons b bs =>
      cases cs with
      | nil => simp [lexLeB] at h2
      | cons c cs =>
        rcases lt_trichotomy a b with hab | hab | hab
        · rcases lt_trichotomy b c with hbc | hbc | hbc
          · simp [lexLeB, lt_trans hab hbc]
          · subst hbc; simp [lexLeB, hab]
          · simp [lexLeB, hbc, lt_asymm hbc] at h2
        · subst hab
          rcases lt_trichotomy a c with hac | hac | hac
          · simp [lexLeB, hac]
          · subst hac
            simp [lexLeB, lt_irrefl] at h1 h2 ⊢
            exact ih _ _ h1 h2
          · simp [lexLeB, hac, lt_asymm hac] at h2
        · simp [lexLeB, hab, lt_asymm hab] at h1

/-- `lexLeB` is antisymmetric. -/
theorem lexLeB_antisymm : ∀ as bs : List Char,
    lexLeB as bs = true → lexLeB bs as = true → as = bs := by
  intro as
  induction as with
  | nil =>
    intro bs _ h2
    cases bs with
    | nil => rfl
    | cons b bs => simp [lexLeB] at h2
  | cons a as ih =>
    intro bs h1 h2
    cases bs with
    | nil => simp [lexLeB] at h1
    | cons b bs =>
      rcases lt_trichotomy a b with hab | hab | hab
      · simp [lexLeB, hab, lt_asymm hab] at h2
      · subst hab
        simp [lexLeB, lt_irrefl] at h1 h2
        rw [ih _ h1 h2]
      · simp [lexLeB, hab, lt_asymm hab] at h1

/-- Sorting lists that are permutations of each other gives the same result. -/
theorem sortStrings_perm_eq {l l' : List String} (h : l.Perm l') :
    sortStrings l = sortStrings l' := by
  letI : IsTotal String pyStrLe := ⟨fun a b => lexLeB_total a.data b.data⟩
  letI : IsTrans String pyStrLe := ⟨fun _ _ _ h1 h2 => lexLeB_trans _ _ _ h1 h2⟩
  letI : IsAntisymm String pyStrLe :=
    ⟨fun _ _ h1 h2 => String.ext (lexLeB_antisymm _ _ h1 h2)⟩
  exact List.eq_of_perm_of_sorted
    (((List.perm_insertionSort pyStrLe l).trans h).trans
      (List.perm_insertionSort pyStrLe l').symm)
    (List.sorted_insertionSort pyStrLe l)
    (List.sorted_insertionSort pyStrLe l')

/-- Claim C2: `is_breaking_change` is claimed to return false whenever either
side is absent or unparseable, and otherwise decide breaking-ness by the
major/0.x-minor rule.  The three documented examples hold, but on the
unparseable whitespace-only input `"   "` the code raises an uncaught
`IndexError` (from `canonicalize_version`'s `''.split()[0]`) instead of
returning false. -/
theorem is_breaking_change_eval :
    is_breaking_change "   " "1.0.0" = Except.error ()
  ∧ is_breaking_change "0.9.0" "0.10.0" = Except.ok true
  ∧ is_breaking_change "1.9.0" "1.10.0" = Except.ok false
  ∧ is_breaking_change "1.0.0" "2.0.0" = Except.ok true := by decide

/-- Claim C3: `canonicalize_version` is claimed to return the absent result
for every input that fails parsing.  The trailing-zero equivalence and the
`1.0 ≠ 2.0` distinction hold, but a whitespace-only input (which fails
parsing) raises an uncaught `IndexError` instead of returning `None`, and
text after an interior space is dropped (first token wins) rather than
failing the parse. -/
theorem canonicalize_version_eval :
    canonicalize_version "   " = Except.error ()
  ∧ canonicalize_version "2.0" = Except.ok (some ⟨[2, 0], none⟩)
  ∧ canonicalize_version "2.0.0" = Except.ok (some ⟨[2, 0, 0], none⟩)
  ∧ versionEq ⟨[2, 0], none⟩ ⟨[2, 0, 0], none⟩ = true
  ∧ canonicalize_version "1.0" = Except.ok (some ⟨[1, 0], none⟩)
  ∧ versionEq ⟨[1, 0], none⟩ ⟨[2, 0], none⟩ = false
  ∧ canonicalize_version "1.0 junk" = Except.ok (some ⟨[1, 0], none⟩) := by decide

/-- Claim C5: the tree fingerprint is invariant under permutation of the
manifest path list, because the paths are sorted before hashing. -/
theorem compute_tree_md5_perm :
    ∀ (md5hex : String → String) (l l' : List String), l.Perm l' →
      compute_tree_md5 md5hex l = compute_tree_md5 md5hex l' := by
  intro md5hex l l' h
  unfold compute_tree_md5
  rw [sortStrings_perm_eq h]

/-- Witness for C5 at a concrete two-element permutation. -/
theorem compute_tree_md5_perm_witness :
    compute_tree_md5 (fun s => s) ["b/Cargo.toml", "a/Cargo.toml"]
      = compute_tree_md5 (fun s => s) ["a/Cargo.toml", "b/Cargo.toml"] :=
  compute_tree_md5_perm (fun s => s) _ _ (List.Perm.swap _ _ _)

/-- Claim C1 counterexample: for a crate-sourced package the hub declares at
a version strictly above the resolved latest version, the claim's rule
(parseable and ≥ latest stable ⇒ `current`) demands `current`, but
`batch_fetch_latest_versions` computes `ahead` — and it compares against the
full latest version, not the latest stable one. -/
theorem hub_status_ge_counterexample :
    hub_fields (some ⟨"rust/hub", "0.1.0", [("serde", "2.0.0")], 0⟩) "serde" "crate" "1.0.0"
      = Except.ok ("2.0.0", "ahead")
  ∧ claimed_hub_status (some "2.0.0") "crate" "1.0.0" = some "current" := by decide

/-- Claim C7 counterexample: with edges at `1.0.0` and `2.0.0` and latest
`2.0.0`, the per-edge rule of the claim classifies the `1.0.0` edge as
breaking, but the code compares only the maximum used version (`2.0.0`)
and reports nothing. -/
theorem get_breaking_updates_counterexample :
    get_breaking_updates [serdeLatest] serdeEdges = Except.ok []
  ∧ claimed_breaking_edges [serdeLatest] serdeEdges
      = [⟨1000, 100, "serde", "1.0.0", "dep", "NONE"⟩] := by decide

/-- Claim C10: with a `hub_sync = "false"` manifest discovered first,
`extract_repo_metadata_batch` numbers the two repository records 100 and
101, while `extract_dependencies_batch` skips the opted-out manifest
without advancing its id counter, so the edge extracted from the second
manifest carries `repo_id` 100 — the record of the *first* manifest — while
the record created from its own manifest has id 101. -/
theorem extract_repo_id_mismatch :
    extract_repo_metadata_batch [manifestAlpha, manifestBeta]
      = [⟨100, "alpha", "alpha/Cargo.toml"⟩, ⟨101, "beta", "beta/Cargo.toml"⟩]
  ∧ extract_dependencies_batch [manifestAlpha, manifestBeta]
      = [⟨1000, 100, "serde", "1.0", "dep", "NONE"⟩]
  ∧ ((extract_repo_metadata_batch [manifestAlpha, manifestBeta]).find?
        (fun r => r.path == "beta/Cargo.toml")).map (fun r => r.repo_id) = some 101 := by decide

/-- Claim C4: the cache-validity check succeeds exactly when the cache
payload file exists, tree metadata is present, the stored fingerprint
matches the fingerprint of the current path list, and the stored timestamp
is at most 24 hours (86400 s) old. -/
theorem should_use_cached_data_iff :
    ∀ (md5hex : String → String) (ce : Bool) (md : Option TreeMetadata)
      (files : List String) (now : ℚ),
      should_use_cached_data md5hex ce md files now = true ↔
        (ce = true ∧ ∃ m, md = some m ∧
          m.tree_md5 = some (compute_tree_md5 md5hex files) ∧
          now - m.timestamp.getD 0 ≤ 86400) := by
  intro md5hex ce md files now
  cases ce with
  | false => simp [should_use_cached_data]
  | true =>
    cases md with
    | none => simp [should_use_cached_data]
    | some m =>
      constructor
      · intro h
        have h1 : m.tree_md5 = some (compute_tree_md5 md5hex files) := by
          by_contra hc
          simp [should_use_cached_data, hc] at h
        have h2 : now - m.timestamp.getD 0 ≤ 86400 := by
          by_contra hc
          simp [should_use_cached_data, h1, not_le.mp hc] at h
        exact ⟨rfl, m, rfl, h1, h2⟩
      · rintro ⟨-, m', hm', h1, h2⟩
        obtain rfl : m = m' := by injection hm'
        simp [should_use_cached_data, h1, not_lt.mpr h2]

/-- A package with more than one distinct declared version occurs among the
dependency names. -/
theorem mem_dedup_names_of_pos {deps : List DepData} {pkg : String}
    (h : 0 < (distinctVersions deps pkg).length) :
    pkg ∈ (deps.map (fun d => d.pkg_name)).dedup := by
  obtain ⟨v, hv⟩ := List.exists_mem_of_length_pos h
  unfold distinctVersions at hv
  rw [List.mem_dedup] at hv
  obtain ⟨d, hd, -⟩ := List.mem_map.mp hv
  have hd1 := List.mem_filter.mp hd
  rw [List.mem_dedup]
  exact List.mem_map.mpr ⟨d, hd1.1, by simpa using hd1.2⟩

/-- Claim C6: `get_version_conflicts` reports a package iff more than one
distinct raw version string is declared for it across the dependency edges;
on the three `serde` edges `"1.0"`, `"1.0"`, `"1.2"` it reports exactly the
one package `serde` with its two distinct versions. -/
theorem get_version_conflicts_iff :
    (∀ (deps : List DepData) (pkg : String),
      (∃ vs, (pkg, vs) ∈ get_version_conflicts deps) ↔
        1 < (distinctVersions deps pkg).length)
  ∧ get_version_conflicts
      [⟨1000, 100, "serde", "1.0", "dep", "NONE"⟩,
       ⟨1001, 101, "serde", "1.0", "dep", "NONE"⟩,
       ⟨1002, 102, "serde", "1.2", "dep", "NONE"⟩]
      = [("serde", ["1.0", "1.2"])] := by
  constructor
  · intro deps pkg
    constructor
    · rintro ⟨vs, hmem⟩
      unfold get_version_conflicts at hmem
      rw [List.mem_map] at hmem
      obtain ⟨p, hp, heq⟩ := hmem
      rw [List.mem_filter] at hp
      obtain ⟨hp1, hp2⟩ := hp
      rw [List.mem_map] at hp1
      obtain ⟨nm, hnm, rfl⟩ := hp1
      rw [Prod.mk.injEq] at heq
      obtain ⟨rfl, -⟩ := heq
      simpa using hp2
    · intro h
      refine ⟨sortStrings (distinctVersions deps pkg), ?_⟩
      unfold get_version_conflicts
      rw [List.mem_map]
      refine ⟨(pkg, distinctVersions deps pkg), ?_, rfl⟩
      rw [List.mem_filter]
      refine ⟨?_, by simpa using h⟩
      rw [List.mem_map]
      exact ⟨pkg, mem_dedup_names_of_pos (lt_trans zero_lt_one h), rfl⟩
  · decide

/-- Claim C9: the persisted-cache write trace opens the final cache path
itself in truncating write mode as its very first operation and contains no
rename anywhere — there is no write-to-temp-then-replace step, so an
interruption mid-write leaves a truncated cache file. -/
theorem write_tsv_cache_no_rename :
    ∀ (repos : List RepoData) (deps : List DepData) (latest : List LatestData)
      (vms : List VersionMapData) (file : String),
      ((write_tsv_cache_ops repos deps latest vms file).head?
        = some (FileOp.openWrite file))
      ∧ ((write_tsv_cache_ops repos deps latest vms file).all
          (fun op => !op.isRename) = true) := by
  intro repos deps latest vms file
  refine ⟨rfl, ?_⟩
  simp [write_tsv_cache_ops, List.all_append, FileOp.isRename, List.all_eq_true,
    List.mem_map]

/-- Claim C7 amended: whenever `get_breaking_updates` returns (raises
nothing), its result lists, in record order, one (package, max-used-version,
latest-version) triple per crate-sourced package record with at least one
edge whose single max-versus-latest comparison is classified breaking —
individual edges are never reported. -/
theorem get_breaking_updates_amended :
    ∀ (latest : List LatestData) (deps : List DepData)
      (out : List (String × String × String)),
      get_breaking_updates latest deps = Except.ok out →
      out = latest.filterMap (breakTripleSpec deps) := by
  intro latest
  induction latest with
  | nil =>
    intro deps out h
    simp only [get_breaking_updates, Except.ok.injEq] at h
    simp [← h]
  | cons ld rest ih =>
    intro deps out h
    rw [List.filterMap_cons]
    by_cases hcr : ld.source_type = "crate"
    · simp only [get_breaking_updates, if_pos hcr] at h
      by_cases hemp :
          ((deps.filter (fun d => d.pkg_name == ld.pkg_name)).map
            (fun d => d.pkg_version)).isEmpty
      · rw [if_pos hemp] at h
        simp [breakTripleSpec, hcr, hemp, ih deps out h]
      · rw [if_neg hemp] at h
        cases hmax :
            pyMaxByParse
              ((deps.filter (fun d => d.pkg_name == ld.pkg_name)).map
                (fun d => d.pkg_version)) with
        | error e => rw [hmax] at h; cases h
        | ok cur =>
          rw [hmax] at h
          dsimp only at h
          cases hbr : is_breaking_change cur ld.latest_version with
          | error e => rw [hbr] at h; cases h
          | ok br =>
            rw [hbr] at h
            dsimp only at h
            cases hrec : get_breaking_updates rest deps with
            | error e => rw [hrec] at h; cases h
            | ok tail =>
              rw [hrec] at h
              dsimp only at h
              have htail := ih deps tail hrec
              obtain rfl : (if br then (ld.pkg_name, cur, ld.latest_version) :: tail
                  else tail) = out := by injection h
              cases br with
              | true => simp [breakTripleSpec, hcr, hemp, hmax, hbr, htail]
              | false => simp [breakTripleSpec, hcr, hemp, hmax, hbr, htail]
    · simp only [get_breaking_updates, if_neg hcr] at h
      simp [breakTripleSpec, hcr, ih deps out h]

/-- Witness for the amended C7 at the concrete two-edge ecosystem. -/
theorem get_breaking_updates_amended_witness :
    ([] : List (String × String × String))
      = [serdeLatest].filterMap (breakTripleSpec serdeEdges) :=
  get_breaking_updates_amended [serdeLatest] serdeEdges [] (by decide)

/-- Claim C8: a repository row with 8 ≤ columns < 12 still loads, with the
documented defaults `"false"`, `""`, `""`, `"project"` for the missing
trailing fields; a package-latest row with exactly 8 columns loads with
`git_status = "OK"`; and hydrating a cache containing such a schema-older
row succeeds and retains the row. -/
theorem hydrate_schema_older_rows :
    (∀ (a b c d e f g h : String) (extra : List String) (rid lu : Int),
      extra.length < 4 → pyInt? a = some rid → pyInt? e = some lu →
      parse_repo_row ([a, b, c, d, e, f, g, h] ++ extra)
        = some ⟨rid, b, c, d, lu, f, g, h, extra.getD 0 "false", extra.getD 1 "",
                extra.getD 2 "", extra.getD 3 "project"⟩)
  ∧ (∀ (a b c d e f g h : String) (pid : Int), pyInt? a = some pid →
      parse_latest_row [a, b, c, d, e, f, g, h] = some ⟨pid, b, c, d, e, f, g, h, "OK"⟩)
  ∧ hydrate_tsv_cache
      ["#------ SECTION : REPO LIST --------#",
       "7\tblade\ttools/blade\ttools\t5\t0.2.0\tNONE\tnone"]
      = ⟨[], [(7, ⟨7, "blade", "tools/blade", "tools", 5, "0.2.0", "NONE", "none",
               "false", "", "", "project"⟩)], [], [], []⟩ := by
  refine ⟨?_, ?_, by decide⟩
  · intro a b c d e f g h extra rid lu hlen h1 h2
    rcases extra with - | ⟨x1, - | ⟨x2, - | ⟨x3, - | ⟨x4, tail⟩⟩⟩⟩
    · simp [parse_repo_row, h1, h2]
    · simp [parse_repo_row, h1, h2]
    · simp [parse_repo_row, h1, h2]
    · simp [parse_repo_row, h1, h2]
    · simp at hlen; omega
  · intro a b c d e f g h pid h1
    simp [parse_latest_row, h1]

/-- Witness for C8 at concrete 8-column rows. -/
theorem hydrate_schema_older_rows_witness :
    parse_repo_row (["7", "blade", "tools/blade", "tools", "5", "0.2.0", "NONE", "none"] ++ [])
      = some ⟨7, "blade", "tools/blade", "tools", 5, "0.2.0", "NONE", "none",
              [].getD 0 "false", [].getD 1 "", [].getD 2 "", [].getD 3 "project"⟩
  ∧ parse_latest_row ["9", "serde", "1.0.0", "1.0.0", "crate", "1.0.0", "NONE", "gap"]
      = some ⟨9, "serde", "1.0.0", "1.0.0", "crate", "1.0.0", "NONE", "gap", "OK"⟩ :=
  ⟨hydrate_schema_older_rows.1 "7" "blade" "tools/blade" "tools" "5" "0.2.0" "NONE" "none"
      [] 7 5 (by decide) (by decide) (by decide),
   hydrate_schema_older_rows.2.1 "9" "serde" "1.0.0" "1.0.0" "crate" "1.0.0" "NONE" "gap"
      9 (by decide)⟩

/-- Claim C1 amended: for a package the hub declares, a crate-sourced record
(with latest ≠ "N/A") gets `current`/`outdated`/`ahead` by comparing the
hub's declared version for equality/less/greater against the resolved
latest (full, not stable) version, `unknown` when either side fails to
parse; non-crate-sourced declared packages get `local`; an undeclared
package (or no hub at all) gets `gap`. -/
theorem hub_status_amended :
    (∀ (hi : HubInfo) (pkg st lv hvs : String) (h l : PyVersion),
      hi.dependencies.lookup pkg = some hvs → st = "crate" → lv ≠ "N/A" →
      canonicalize_version hvs = Except.ok (some h) →
      canonicalize_version lv = Except.ok (some l) →
      hub_fields (some hi) pkg st lv =
        Except.ok (hvs,
          if versionEq h l then "current"
          else if versionLt h l then "outdated"
          else "ahead"))
  ∧ (∀ (hi : HubInfo) (pkg st lv hvs : String) (ho lo : Option PyVersion),
      hi.dependencies.lookup pkg = some hvs → st = "crate" → lv ≠ "N/A" →
      canonicalize_version hvs = Except.ok ho →
      canonicalize_version lv = Except.ok lo →
      (ho = none ∨ lo = none) →
      hub_fields (some hi) pkg st lv = Except.ok (hvs, "unknown"))
  ∧ (∀ (hi : HubInfo) (pkg st lv hvs : String),
      hi.dependencies.lookup pkg = some hvs → (st ≠ "crate" ∨ lv = "N/A") →
      hub_fields (some hi) pkg st lv = Except.ok (hvs, "local"))
  ∧ (∀ (hi : HubInfo) (pkg st lv : String),
      hi.dependencies.lookup pkg = none →
      hub_fields (some hi) pkg st lv = Except.ok ("NONE", "gap"))
  ∧ (∀ (pkg st lv : String), hub_fields none pkg st lv = Except.ok ("NONE", "gap")) := by
  refine ⟨?_, ?_, ?_, ?_, ?_⟩
  · intro hi pkg st lv hvs h l hlook hst hNA hhv hlv
    subst hst
    simp only [hub_fields, hlook]
    rw [if_pos (And.intro trivial hNA)]
    simp only [parse_version, hhv, hlv]
  · intro hi pkg st lv hvs ho lo hlook hst hNA hhv hlv hnone
    subst hst
    simp only [hub_fields, hlook]
    rw [if_pos (And.intro trivial hNA)]
    simp only [parse_version, hhv, hlv]
    rcases hnone with rfl | rfl
    · rfl
    · cases ho <;> rfl
  · intro hi pkg st lv hvs hlook hor
    simp only [hub_fields, hlook]
    rw [if_neg]
    rintro ⟨h1, h2⟩
    rcases hor with hne | hNA
    · exact hne h1
    · exact h2 hNA
  · intro hi pkg st lv hlook
    simp only [hub_fields, hlook]
  · intro pkg st lv
    rfl

/-- Witness for the amended C1, instantiating each branch concretely. -/
theorem hub_status_amended_witness :
    hub_fields (some ⟨"rust/hub", "0.1.0", [("serde", "2.0.0")], 0⟩) "serde" "crate" "1.0.0"
      = Except.ok ("2.0.0",
          if versionEq ⟨[2, 0, 0], none⟩ ⟨[1, 0, 0], none⟩ then "current"
          else if versionLt ⟨[2, 0, 0], none⟩ ⟨[1, 0, 0], none⟩ then "outdated"
          else "ahead")
  ∧ hub_fields (some ⟨"rust/hub", "0.1.0", [("serde", "abc")], 0⟩) "serde" "crate" "1.0.0"
      = Except.ok ("abc", "unknown")
  ∧ hub_fields (some ⟨"rust/hub", "0.1.0", [("tools", "0.3.0")], 0⟩) "tools" "git" "0.3.0"
      = Except.ok ("0.3.0", "local")
  ∧ hub_fields (some ⟨"rust/hub", "0.1.0", [], 0⟩) "serde" "crate" "1.0.0"
      = Except.ok ("NONE", "gap")
  ∧ hub_fields none "serde" "crate" "1.0.0" = Except.ok ("NONE", "gap") :=
  ⟨hub_status_amended.1 _ "serde" "crate" "1.0.0" "2.0.0" ⟨[2, 0, 0], none⟩ ⟨[1, 0, 0], none⟩
      (by decide) rfl (by decide) (by decide) (by decide),
   hub_status_amended.2.1 _ "serde" "crate" "1.0.0" "abc" none (some ⟨[1, 0, 0], none⟩)
      (by decide) rfl (by decide) (by decide) (by decide) (Or.inl rfl),
   hub_status_amended.2.2.1 _ "tools" "git" "0.3.0" "0.3.0" (by decide) (Or.inl (by decide)),
   hub_status_amended.2.2.2.1 _ "serde" "crate" "1.0.0" (by decide),
   hub_status_amended.2.2.2.2 "serde" "crate" "1.0.0"⟩
